import Mathlib

/-!
Verification of the prime_sdk client library's utility layer against its
specification, over a shallow embedding of the TypeScript source.

Embedding conventions:
- JS `bigint` values are embedded as `Int`.  JS bigint `/` truncates toward
  zero and `%` takes the dividend's sign, so they are `Int.tdiv` / `Int.tmod`;
  bigint division by zero throws, so the raw division is `Except`-valued.
- JS strings are embedded as `String` (operated on through their `List Char`
  data); `BigInt.prototype.toString` is embedded by a fuel-based base-10 digit
  loop.
- Operations that can throw are embedded as `Except`-valued functions.
-/

namespace PrimeSdk

/-- JS bigint division (`a / b`): truncated division; division by zero throws
a `RangeError`. -/
def bigintDiv (a b : Int) : Except String Int :=
  if b = 0 then Except.error ("RangeError: Division by zero")
  else Except.ok (a.tdiv b)

/-- Embedding of `calculateUserShare(userBalance, totalDistribution,
eligibleSupply)` from src/src/utils/helpers.ts lines 181-188: guard on zero
eligible supply, otherwise `(totalDistribution * userBalance) / eligibleSupply`
in bigint arithmetic. -/
def calculateUserShare (userBalance totalDistribution eligibleSupply : Int) :
    Except String Int :=
  if eligibleSupply = 0 then Except.ok 0
  else bigintDiv (totalDistribution * userBalance) eligibleSupply

-- ========================= Decimal strings =========================

/-- Character for a decimal digit, as JS renders digits. -/
def digitChar (d : Nat) : Char := Char.ofNat (48 + d)

/-- Numeric value of a decimal digit character. -/
def charToDigit (c : Char) : Nat := c.toNat - 48

/-- Whether a character is a decimal digit. -/
def isDigitChar (c : Char) : Bool := decide (48 ≤ c.toNat) && decide (c.toNat ≤ 57)

/-- Base-10 digits of `n`, least significant first, computed by the usual
divide-by-ten loop (fuel-based so the recursion is structural; fuel `n`
always suffices). -/
def toDigitsRev : Nat → Nat → List Nat
  | 0, _ => []
  | fuel + 1, n => if n = 0 then [] else n % 10 :: toDigitsRev fuel (n / 10)

/-- Value of a little-endian digit list. -/
def ofDigitsLE : List Nat → Nat
  | [] => 0
  | d :: ds => d + 10 * ofDigitsLE ds

/-- Decimal rendering of a natural number (`"0"` for zero), embedding
`BigInt.prototype.toString` on non-negative values. -/
def natToChars (n : Nat) : List Char :=
  if n = 0 then ['0'] else ((toDigitsRev n n).map digitChar).reverse

/-- Decimal rendering of a JS bigint (sign-prefixed for negatives). -/
def intToChars (i : Int) : List Char :=
  if i < 0 then '-' :: natToChars i.natAbs else natToChars i.toNat

/-- `String` version of `intToChars`. -/
def intToString (i : Int) : String := String.mk (intToChars i)

/-- Embedding of JS `String.prototype.padStart(len, c)` (with a one-character
pad string). -/
def padStartChars (s : List Char) (len : Nat) (c : Char) : List Char :=
  List.replicate (len - s.length) c ++ s

/-- Embedding of JS `.replace(/0+$/, '')`: remove all trailing `'0'`
characters. -/
def trimTrailingZeros (s : List Char) : List Char :=
  (s.reverse.dropWhile (fun c => c == '0')).reverse

/-- Embedding of `formatTokenDisplay(amount, decimals)` from
src/src/utils/helpers.ts lines 145-158. -/
def formatTokenDisplay (amount : Int) (decimals : Nat) : String :=
  let divisor : Int := 10 ^ decimals
  let whole := amount.tdiv divisor
  let fraction := amount.tmod divisor
  if fraction = 0 then intToString whole
  else
    let fractionStr := padStartChars (intToChars fraction) decimals '0'
    let trimmedFraction := trimTrailingZeros fractionStr
    if trimmedFraction.isEmpty then intToString whole
    else String.mk (intToChars whole ++ '.' :: trimmedFraction)

/-- Embedding of `formatUSDCDisplay` (src/src/utils/helpers.ts lines
160-162). -/
def formatUSDCDisplay (amount : Int) : String := formatTokenDisplay amount 6

/-- Embedding of `formatPercentage(numerator, denominator, decimals)` from
src/src/utils/helpers.ts lines 164-177.  The `decimals` parameter is
declared by the source but never read by its body. -/
def formatPercentage (numerator denominator : Int) (decimals : Nat) : String :=
  if denominator = 0 then "0%"
  else
    let percentage := (numerator * 10000).tdiv denominator
    let whole := percentage.tdiv 100
    let fraction := percentage.tmod 100
    if fraction = 0 then String.mk (intToChars whole ++ ['%'])
    else
      let fractionStr := padStartChars (intToChars fraction) 2 '0'
      String.mk (intToChars whole ++ '.' :: fractionStr ++ ['%'])

/-- Split a character list at the first `'.'`: everything before it and
everything after it (the whole list and an empty remainder when there is no
dot). -/
def splitAtDot : List Char → List Char × List Char
  | [] => ([], [])
  | c :: cs =>
    if c = '.' then ([], cs)
    else
      let r := splitAtDot cs
      (c :: r.1, r.2)

/-- Value of a most-significant-first decimal digit string. -/
def parseNatChars (s : List Char) : Nat :=
  s.foldl (fun acc c => 10 * acc + charToDigit c) 0

/-- Modelled from the spec: `parseFromDisplayString(text, exponent)` (spec
§4.1).  The repository's own inverse parser (`parseTokenAmount`,
src/unnamed/part_003 lines 470-486) delegates to the external viem library,
whose code is not part of this repository, so the parse direction is modelled
from the spec's words: accept a decimal numeral with an optional fractional
part, fail with `InvalidAmountFormat` otherwise, and compute
`round(numericValue * 10^exponent)` as an exact integer operation (exact for
fractional parts of length at most `exponent`, round-half-up beyond). -/
def parseFromDisplayString (text : String) (exponent : Nat) : Except String Int :=
  let p := splitAtDot text.data
  let whole := p.1
  let frac := p.2
  if whole.all isDigitChar && !whole.isEmpty && frac.all isDigitChar then
    let w := parseNatChars whole
    let f := parseNatChars frac
    let k := frac.length
    if k ≤ exponent then
      Except.ok ((w * 10 ^ exponent + f * 10 ^ (exponent - k) : Nat) : Int)
    else
      Except.ok ((((w * 10 ^ k + f) * 10 ^ exponent + 10 ^ k / 2) / 10 ^ k : Nat) : Int)
  else Except.error ("InvalidAmountFormat")

/-- The computation C3 specifies for `formatPercentage`: scale by
`10^(precisionDigits+2)`, integer-divide, split the result into whole and
fractional percentage digits as in the amount codec, trim trailing zero
digits from the fraction, append `%`. -/
def formatPercentageSpec (numerator denominator : Int) (precisionDigits : Nat) : String :=
  if denominator = 0 then "0%"
  else
    let scaled := (numerator * 10 ^ (precisionDigits + 2)).tdiv denominator
    let whole := scaled.tdiv (10 ^ precisionDigits)
    let fraction := scaled.tmod (10 ^ precisionDigits)
    let fracChars := trimTrailingZeros (padStartChars (intToChars fraction) precisionDigits '0')
    if fracChars.isEmpty then String.mk (intToChars whole ++ ['%'])
    else String.mk (intToChars whole ++ '.' :: fracChars ++ ['%'])

/-- Amended specification for C3: the precision parameter is ignored (the
scale is fixed at `10^(2+2)`), and the two fractional percentage digits are
kept verbatim — the fractional part is omitted only when it is entirely
zero, and trailing zeros are not trimmed. -/
def formatPercentageSpecAmended (numerator denominator : Int) : String :=
  if denominator = 0 then "0%"
  else
    let scaled := (numerator * 10 ^ (2 + 2)).tdiv denominator
    let whole := scaled.tdiv (10 ^ 2)
    let fraction := scaled.tmod (10 ^ 2)
    if fraction = 0 then String.mk (intToChars whole ++ ['%'])
    else String.mk (intToChars whole ++ '.' :: padStartChars (intToChars fraction) 2 '0' ++ ['%'])

/-- Embedding of `validateSnapshotId` (src/src/utils/helpers.ts lines
220-222). -/
def validateSnapshotId (snapshotId : Int) : Bool := decide (0 < snapshotId)

-- ========================= JS values and error parsing =========================

/-- Untyped JS values, as far as `parseContractError`'s dynamic checks can
distinguish them. -/
inductive JSValue where
  | vstring (s : String)
  | vnumber (n : Int)
  | vbool (b : Bool)
  | vnull
  | vundefined
  | vobject (fields : List (String × JSValue))

/-- JS truthiness. -/
def isTruthy : JSValue → Bool
  | .vstring s => !s.isEmpty
  | .vnumber n => decide (n ≠ 0)
  | .vbool b => b
  | .vnull => false
  | .vundefined => false
  | .vobject _ => true

/-- Whether `typeof v === 'object'` (true for objects and for `null`). -/
def typeofObject : JSValue → Bool
  | .vnull => true
  | .vobject _ => true
  | _ => false

/-- JS `name in v` for objects (false on primitives). -/
def hasField : JSValue → String → Bool
  | .vobject fields, name => fields.any (fun kv => kv.1 == name)
  | _, _ => false

/-- JS property read `v[name]` (`undefined` when absent or on a
non-object). -/
def getField : JSValue → String → JSValue
  | .vobject fields, name =>
    match fields.find? (fun kv => kv.1 == name) with
    | some kv => kv.2
    | none => .vundefined
  | _, _ => .vundefined

/-- Whether `s` begins with `pat`. -/
def startsWithChars : List Char → List Char → Bool
  | _, [] => true
  | [], _ :: _ => false
  | c :: cs, d :: ds => c == d && startsWithChars cs ds

/-- Substring test on character lists. -/
def includesChars (s pat : List Char) : Bool :=
  (List.range (s.length + 1)).any (fun i => startsWithChars (s.drop i) pat)

/-- Embedding of JS `String.prototype.includes`. -/
def strIncludes (s pat : String) : Bool := includesChars s.data pat.data

/-- Embedding of `parseContractError(error)` from src/src/utils/helpers.ts
lines 230-260.  The source casts `error` to `{ message: string }` without
checking the field's type and then calls `message.includes`; when the
`message` field holds a non-string, that call throws a `TypeError`, embedded
here as the `Except.error` branch. -/
def parseContractError (error : JSValue) : Except String String :=
  match error with
  | .vstring s => Except.ok s
  | _ =>
    if isTruthy error && typeofObject error && hasField error ("message") then
      match getField error ("message") with
      | .vstring message =>
        if strIncludes message ("Pausable: paused") then
          Except.ok ("Contract is currently paused")
        else if strIncludes message ("AccessControl:") then
          Except.ok ("Insufficient permissions for this operation")
        else if strIncludes message ("Already claimed") then
          Except.ok ("You have already claimed for this snapshot")
        else if strIncludes message ("Nothing to claim") then
          Except.ok ("No claimable amount available")
        else if strIncludes message ("Deadline not reached") then
          Except.ok ("Claim deadline has not been reached yet")
        else if strIncludes message ("Insufficient balance") then
          Except.ok ("Insufficient balance for this transaction")
        else Except.ok message
      | _ => Except.error ("TypeError: message.includes is not a function")
    else Except.ok ("Unknown error occurred")

-- ========================= APY =========================

/-- Exact-rational embedding of JS `Number(string)` on the decimal strings
the display formatters produce.  Real JS rounds the value to the nearest
binary double and yields `NaN` on non-numeric text; that rounding is not
modelled (values stay exact in `ℚ`) and non-numeric text maps to `0`.  The
claim settled against `calculateAPY` depends only on its integer
zero-guards, which return before this conversion runs. -/
def jsNumberOfString (s : String) : Rat :=
  let p := splitAtDot s.data
  if p.1.all isDigitChar && !p.1.isEmpty && p.2.all isDigitChar then
    (parseNatChars p.1 : Rat) + (parseNatChars p.2 : Rat) / (10 : Rat) ^ p.2.length
  else 0

/-- Embedding of `calculateAPY(monthlyDistribution, userBalance,
eligibleSupply, tokenPriceUSD)` from src/src/utils/helpers.ts lines 190-208.
JS `number` arithmetic is modelled exactly over `ℚ`; the periods-per-year
factor is the source's fixed constant `12`. -/
def calculateAPY (monthlyDistribution userBalance eligibleSupply : Int)
    (tokenPriceUSD : Rat) : Except String Rat :=
  if eligibleSupply = 0 ∨ userBalance = 0 then Except.ok 0
  else do
    let userShare ← calculateUserShare userBalance monthlyDistribution eligibleSupply
    let userShareUSD := jsNumberOfString (formatUSDCDisplay userShare)
    let userBalanceUSD := jsNumberOfString (formatTokenDisplay userBalance 18) * tokenPriceUSD
    if userBalanceUSD = 0 then Except.ok 0
    else Except.ok (userShareUSD / userBalanceUSD * 12 * 100)

-- ========================= Client operations =========================

/-- Outcome of one remote contract/transport call: a value, or an opaque
rejection. -/
abbrev Remote (α : Type) : Type := Except JSValue α

/-- Decoded distribution tuple (src/src/types/contracts.ts). -/
structure DistributionInfo where
  totalAmount : Int
  claimedAmount : Int
  createdAt : Int
  deadlineAt : Int
  isActive : Bool

/-- Per-user, per-snapshot information. -/
structure UserInfo where
  balance : Int
  balanceAtSnapshot : Int
  claimableAmount : Int
  hasClaimed : Bool

/-- Result of a successful claim. -/
structure ClaimResult where
  snapshotId : Int
  amount : Int
  user : String
  timestamp : Int
  transactionHash : String

/-- Result of a successful snapshot creation. -/
structure SnapshotResult where
  snapshotId : Int
  blockNumber : Int
  timestamp : Int
  totalSupply : Int
  eligibleSupply : Int

/-- Result of a successful distribution creation. -/
structure DistributionResult where
  snapshotId : Int
  amount : Int
  timestamp : Int
  transactionHash : String

/-- The client's error taxonomy (src/src/types/contracts.ts).  `rawRemote`
stands for an unwrapped transport rejection in flight inside a `try` block;
client operations never return it (their `catch` clauses wrap it). -/
inductive SdkError where
  | contractInteraction (message contractName method : String)
  | insufficientBalance (required available : Int) (token : String)
  | claimDeadlinePassed (snapshotId deadlineAt : Int)
  | errorMessage (message : String)
  | rawRemote (cause : JSValue)

/-- An `await` of a raw remote call inside a `try` block: a rejection
surfaces as an (unwrapped) thrown value. -/
def rawStep {α : Type} (remote : Remote α) : Except SdkError α :=
  match remote with
  | .ok v => .ok v
  | .error e => .error (.rawRemote e)

/-- Embedding of `getTokenBalance` (src/unnamed/part_003 lines 97-109),
parameterised by the remote call's outcome. -/
def getTokenBalance (remote : Remote Int) : Except SdkError Int :=
  match remote with
  | .ok v => .ok v
  | .error _ =>
    .error (.contractInteraction ("Failed to get token balance") ("ENR1MToken") ("balanceOf"))

/-- Embedding of `getTokenBalanceAtSnapshot` (src/unnamed/part_003 lines
114-126). -/
def getTokenBalanceAtSnapshot (remote : Remote Int) : Except SdkError Int :=
  match remote with
  | .ok v => .ok v
  | .error _ =>
    .error (.contractInteraction ("Failed to get token balance at snapshot") ("ENR1MToken")
      ("balanceOfAt"))

/-- Embedding of `getTotalSupplyAtSnapshot` (src/unnamed/part_003 lines
131-143). -/
def getTotalSupplyAtSnapshot (remote : Remote Int) : Except SdkError Int :=
  match remote with
  | .ok v => .ok v
  | .error _ =>
    .error (.contractInteraction ("Failed to get total supply at snapshot") ("ENR1MToken")
      ("totalSupplyAt"))

/-- Embedding of `getEligibleSupplyAtSnapshot` (src/unnamed/part_003 lines
148-160). -/
def getEligibleSupplyAtSnapshot (remote : Remote Int) : Except SdkError Int :=
  match remote with
  | .ok v => .ok v
  | .error _ =>
    .error (.contractInteraction ("Failed to get eligible supply at snapshot") ("ENR1MToken")
      ("eligibleSupplyAt"))

/-- Embedding of `getClaimableAmount` (src/unnamed/part_003 lines
206-218). -/
def getClaimableAmount (remote : Remote Int) : Except SdkError Int :=
  match remote with
  | .ok v => .ok v
  | .error _ =>
    .error (.contractInteraction ("Failed to get claimable amount") ("Distributor") ("claimable"))

/-- Embedding of `getDistributionInfo` (src/unnamed/part_003 lines 223-243):
decodes the five-element return tuple. -/
def getDistributionInfo (remote : Remote (Int × Int × Int × Int × Bool)) :
    Except SdkError DistributionInfo :=
  match remote with
  | .ok (t, c, cr, dl, act) => .ok ⟨t, c, cr, dl, act⟩
  | .error _ =>
    .error (.contractInteraction ("Failed to get distribution info") ("Distributor")
      ("getDistributionInfo"))

/-- Embedding of `getUserInfo` (src/unnamed/part_003 lines 248-271): the
three wrapped reads plus the raw `claimed` read, with a catch-all rewrap. -/
def getUserInfo (balanceRemote balanceAtRemote claimableRemote : Remote Int)
    (claimedRemote : Remote Bool) : Except SdkError UserInfo :=
  match (do
    let balance ← getTokenBalance balanceRemote
    let balanceAtSnapshot ← getTokenBalanceAtSnapshot balanceAtRemote
    let claimableAmount ← getClaimableAmount claimableRemote
    let hasClaimed ← rawStep claimedRemote
    Except.ok (⟨balance, balanceAtSnapshot, claimableAmount, hasClaimed⟩ : UserInfo)) with
  | .ok res => .ok res
  | .error _ =>
    .error (.contractInteraction ("Failed to get user info") ("Multiple contracts")
      ("getUserInfo"))

/-- Embedding of `createSnapshot` (src/unnamed/part_003 lines 166-199):
`snapshotId` and `ts` stand for the source's placeholder `Date.now()`
values. -/
def createSnapshot (write : Remote String) (receipt : Remote Int) (snapshotId ts : Int)
    (totalSupplyRemote eligibleSupplyRemote : Remote Int) : Except SdkError SnapshotResult :=
  match (do
    let _hash ← rawStep write
    let blockNumber ← rawStep receipt
    let totalSupply ← getTotalSupplyAtSnapshot totalSupplyRemote
    let eligibleSupply ← getEligibleSupplyAtSnapshot eligibleSupplyRemote
    Except.ok (⟨snapshotId, blockNumber, ts, totalSupply, eligibleSupply⟩ : SnapshotResult)) with
  | .ok res => .ok res
  | .error _ =>
    .error (.contractInteraction ("Failed to create snapshot") ("ENR1MToken") ("snapshot"))

/-- Remote outcomes feeding one `claim(snapshotId)` call. -/
structure ClaimRemotes where
  claimable : Remote Int
  claimed : Remote Bool
  distributionInfo : Remote (Int × Int × Int × Int × Bool)
  writeClaim : Remote String
  receipt : Remote Unit

/-- Body of `claim` (src/unnamed/part_003 lines 276-314): the `try` block's
contents before the `catch`. -/
def claimBody (accountFetch : Remote String) (snapshotId ts : Int) (r : ClaimRemotes) :
    Except SdkError ClaimResult := do
  let account ← rawStep accountFetch
  let claimableAmount ← getClaimableAmount r.claimable
  let hasClaimed ← rawStep r.claimed
  let distributionInfo ← getDistributionInfo r.distributionInfo
  if hasClaimed then Except.error (.errorMessage ("Already claimed for this snapshot"))
  else if claimableAmount = 0 then
    Except.error (.errorMessage ("Nothing to claim for this snapshot"))
  else if !distributionInfo.isActive then
    Except.error (.claimDeadlinePassed snapshotId distributionInfo.deadlineAt)
  else do
    let hash ← rawStep r.writeClaim
    let _ ← rawStep r.receipt
    Except.ok ⟨snapshotId, claimableAmount, account, ts, hash⟩

/-- Embedding of `claim` (src/unnamed/part_003 lines 276-326): the body with
its `catch` clause, which rethrows `ClaimDeadlinePassedError` and wraps every
other failure in a `ContractInteractionError`. -/
def claim (accountFetch : Remote String) (snapshotId ts : Int) (r : ClaimRemotes) :
    Except SdkError ClaimResult :=
  match claimBody accountFetch snapshotId ts r with
  | .ok res => .ok res
  | .error (.claimDeadlinePassed sid dl) => .error (.claimDeadlinePassed sid dl)
  | .error _ => .error (.contractInteraction ("Failed to claim profits") ("Distributor") ("claim"))

/-- Embedding of `claimMultiple` (src/unnamed/part_003 lines 331-362): claims
each snapshot individually, logging and skipping per-item failures, and
returns the list of succeeded results; only a failing account fetch reaches
the outer `catch`. -/
def claimMultiple (accountFetch : Remote String) (ts : Int) (snapshotIds : List Int)
    (remotes : Int → ClaimRemotes) : Except SdkError (List ClaimResult) :=
  match accountFetch with
  | .error _ =>
    .error (.contractInteraction ("Failed to claim multiple profits") ("Distributor")
      ("claimMultiple"))
  | .ok _ =>
    .ok (snapshotIds.filterMap (fun sid => (claim accountFetch sid ts (remotes sid)).toOption))

/-- Body of `depositRevenue` (src/unnamed/part_003 lines 369-394). -/
def depositRevenueBody (amount : Int) (accountFetch : Remote String) (usdcBalance : Remote Int)
    (approveWrite : Remote String) (approveReceipt : Remote Unit)
    (depositWrite : Remote String) (depositReceipt : Remote Unit) : Except SdkError String := do
  let _account ← rawStep accountFetch
  let balance ← rawStep usdcBalance
  if balance < amount then Except.error (.insufficientBalance amount balance ("USDC"))
  else do
    let _approveHash ← rawStep approveWrite
    let _ ← rawStep approveReceipt
    let depositHash ← rawStep depositWrite
    let _ ← rawStep depositReceipt
    Except.ok depositHash

/-- Embedding of `depositRevenue` (src/unnamed/part_003 lines 369-406): the
`catch` rethrows `InsufficientBalanceError` and wraps everything else. -/
def depositRevenue (amount : Int) (accountFetch : Remote String) (usdcBalance : Remote Int)
    (approveWrite : Remote String) (approveReceipt : Remote Unit)
    (depositWrite : Remote String) (depositReceipt : Remote Unit) : Except SdkError String :=
  match depositRevenueBody amount accountFetch usdcBalance approveWrite approveReceipt
      depositWrite depositReceipt with
  | .ok h => .ok h
  | .error (.insufficientBalance req avail tok) => .error (.insufficientBalance req avail tok)
  | .error _ =>
    .error (.contractInteraction ("Failed to deposit revenue") ("RevenueVault") ("deposit"))

/-- Embedding of `fundDistribution` (src/unnamed/part_003 lines 411-428). -/
def fundDistribution (write : Remote String) (receipt : Remote Unit) : Except SdkError String :=
  match write, receipt with
  | .ok h, .ok _ => .ok h
  | .ok _, .error _ =>
    .error (.contractInteraction ("Failed to fund distribution") ("RevenueVault")
      ("fundDistribution"))
  | .error _, _ =>
    .error (.contractInteraction ("Failed to fund distribution") ("RevenueVault")
      ("fundDistribution"))

/-- Embedding of `createDistribution` (src/unnamed/part_003 lines
433-456). -/
def createDistribution (snapshotId amount ts : Int) (write : Remote String)
    (receipt : Remote Unit) : Except SdkError DistributionResult :=
  match write, receipt with
  | .ok h, .ok _ => .ok ⟨snapshotId, amount, ts, h⟩
  | .ok _, .error _ =>
    .error (.contractInteraction ("Failed to create distribution") ("Distributor") ("distribute"))
  | .error _, _ =>
    .error (.contractInteraction ("Failed to create distribution") ("Distributor") ("distribute"))

/-- Embedding of `hasRole` (src/unnamed/part_003 lines 498-506): the `catch`
clause maps any failure to `false`. -/
def hasRole (remote : Remote Bool) : Except SdkError Bool :=
  match remote with
  | .ok v => .ok v
  | .error _ => .ok false

-- ========================= Theorems =========================

theorem natCast_tdiv (m n : Nat) : Int.tdiv (m : Int) (n : Int) = ((m / n : Nat) : Int) := rfl

theorem calculateUserShare_natCast (b p s : Nat) :
    calculateUserShare (b : Int) (p : Int) (s : Int)
      = Except.ok (((p * b) / s : Nat) : Int) := by
  by_cases hs : s = 0
  · subst hs
    simp [calculateUserShare]
  · have hs' : (s : Int) ≠ 0 := Int.natCast_ne_zero.mpr hs
    rw [calculateUserShare, if_neg hs', bigintDiv, if_neg hs']
    rw [← Nat.cast_mul, natCast_tdiv]

/-- C1: for all non-negative bigint inputs, `calculateUserShare` returns `0`
when the eligible supply is `0` and otherwise the floor of
`poolTotal * holderBalance / eligibleSupply` in exact integer arithmetic
(multiplication before division); in particular
`calculateUserShare(10000*10^18, 15000*10^6, 315000*10^18) = 476190476`. -/
theorem calculateUserShare_guard_and_floor :
    (∀ b p s : Nat,
      calculateUserShare (b : Int) (p : Int) (s : Int)
        = Except.ok (if s = 0 then 0 else (((p * b) / s : Nat) : Int)))
    ∧ calculateUserShare (10000 * 10 ^ 18) (15000 * 10 ^ 6) (315000 * 10 ^ 18)
        = Except.ok 476190476 := by
  constructor
  · intro b p s
    rw [calculateUserShare_natCast]
    by_cases hs : s = 0 <;> simp [hs]
  · have h := calculateUserShare_natCast (10000 * 10 ^ 18) (15000 * 10 ^ 6) (315000 * 10 ^ 18)
    norm_num at h
    exact h

/-- C6: for all non-negative bigint inputs `calculateUserShare` never throws,
and when `holderBalance ≤ eligibleSupply` the returned share is at most
`poolTotal`. -/
theorem calculateUserShare_total_and_bounded :
    ∀ b p s : Nat,
      (∃ r : Int, calculateUserShare (b : Int) (p : Int) (s : Int) = Except.ok r)
      ∧ (b ≤ s → ∃ r : Int,
          calculateUserShare (b : Int) (p : Int) (s : Int) = Except.ok r
          ∧ r ≤ (p : Int)) := by
  intro b p s
  refine ⟨⟨_, calculateUserShare_natCast b p s⟩,
    fun hbs => ⟨_, calculateUserShare_natCast b p s, ?_⟩⟩
  have hb : (p * b) / s ≤ p := by
    rcases Nat.eq_zero_or_pos s with hs | hs
    · subst hs; simp
    · calc (p * b) / s ≤ (p * s) / s := Nat.div_le_div_right (Nat.mul_le_mul_left p hbs)
        _ = p := Nat.mul_div_cancel p hs
  exact_mod_cast hb

/-- Witness for C6 at `(b, p, s) = (1, 5, 3)`. -/
theorem calculateUserShare_total_and_bounded_witness :
    ∃ r : Int, calculateUserShare ((1 : Nat) : Int) ((5 : Nat) : Int) ((3 : Nat) : Int)
      = Except.ok r ∧ r ≤ ((5 : Nat) : Int) :=
  (calculateUserShare_total_and_bounded 1 5 3).2 (by norm_num)

/-- C7: for fixed pool and fixed positive eligible supply (ScaledAmounts,
hence non-negative, per the spec's data model), `calculateUserShare` is
non-decreasing in the holder balance. -/
theorem calculateUserShare_monotone :
    ∀ p s b1 b2 : Nat, 0 < s → b1 ≤ b2 →
      ∃ r1 r2 : Int,
        calculateUserShare (b1 : Int) (p : Int) (s : Int) = Except.ok r1
        ∧ calculateUserShare (b2 : Int) (p : Int) (s : Int) = Except.ok r2
        ∧ r1 ≤ r2 := by
  intro p s b1 b2 _hs h
  refine ⟨_, _, calculateUserShare_natCast b1 p s, calculateUserShare_natCast b2 p s, ?_⟩
  have hm : (p * b1) / s ≤ (p * b2) / s :=
    Nat.div_le_div_right (Nat.mul_le_mul_left p h)
  exact_mod_cast hm

/-- Witness for C7 at `(p, s, b1, b2) = (5, 3, 1, 2)`. -/
theorem calculateUserShare_monotone_witness :
    ∃ r1 r2 : Int,
      calculateUserShare ((1 : Nat) : Int) ((5 : Nat) : Int) ((3 : Nat) : Int) = Except.ok r1
      ∧ calculateUserShare ((2 : Nat) : Int) ((5 : Nat) : Int) ((3 : Nat) : Int) = Except.ok r2
      ∧ r1 ≤ r2 :=
  calculateUserShare_monotone 5 3 1 2 (by norm_num) (by norm_num)

/-- C10: `validateSnapshotId(id)` is true exactly when `id > 0`; in
particular it is false at `0` and true at `1`. -/
theorem validateSnapshotId_spec :
    (∀ id : Int, validateSnapshotId id = true ↔ 0 < id)
    ∧ validateSnapshotId 0 = false ∧ validateSnapshotId 1 = true := by
  refine ⟨fun id => ?_, rfl, rfl⟩
  simp [validateSnapshotId]

/-- C8: the third parameter of `formatPercentage` has no effect on its
result; the computation always keeps exactly two fractional percentage
digits (the trailing zero of `"12.50%"` survives even with precision
argument `0`). -/
theorem formatPercentage_ignores_precision :
    (∀ (n d : Int) (p q : Nat), formatPercentage n d p = formatPercentage n d q)
    ∧ formatPercentage 1 8 0 = "12.50%" :=
  ⟨fun _ _ _ _ => rfl, by decide⟩

/-- C3 counterexample: at `(1, 8, 2)` the code yields `"12.50%"` while the
claimed computation (which trims trailing zero digits from the fraction)
yields `"12.5%"`. -/
theorem formatPercentage_spec_counterexample :
    formatPercentage 1 8 2 = "12.50%"
    ∧ formatPercentageSpec 1 8 2 = "12.5%"
    ∧ ("12.50%" : String) ≠ "12.5%" :=
  ⟨by decide, by decide, by decide⟩

/-- C3 amended: for every numerator, positive denominator and precision
argument, `formatPercentage` equals the amended computation — fixed scale
`10^(2+2)`, two fractional percentage digits kept verbatim, the fraction
omitted only when entirely zero — and
`formatPercentage(3333, 10000, 2) = "33.33%"`. -/
theorem formatPercentage_amended :
    (∀ (n d : Int) (p : Nat), 0 < d → formatPercentage n d p = formatPercentageSpecAmended n d)
    ∧ formatPercentage 3333 10000 2 = "33.33%" := by
  constructor
  · intro n d p hd
    have hd' : d ≠ 0 := ne_of_gt hd
    simp only [formatPercentage, formatPercentageSpecAmended, if_neg hd']
    norm_num
  · decide

/-- Witness for the amended C3 theorem at `(1, 8, 0)`. -/
theorem formatPercentage_amended_witness :
    formatPercentage 1 8 0 = formatPercentageSpecAmended 1 8 :=
  formatPercentage_amended.1 1 8 0 (by norm_num)

/-- C4 (code bug): `parseContractError` handles strings, objects carrying a
string `message`, and absent/unknown input without throwing — but an object
whose `message` field is not a string makes the source call
`message.includes` on a non-string, which throws a `TypeError`, contrary to
the never-throw requirement; the failing input `{ message: 42 }` is
evaluated in the last conjunct. -/
theorem parseContractError_eval :
    parseContractError (JSValue.vobject [(("message"), JSValue.vstring ("Pausable: paused"))])
      = Except.ok ("Contract is currently paused")
    ∧ parseContractError JSValue.vundefined = Except.ok ("Unknown error occurred")
    ∧ parseContractError (JSValue.vobject []) = Except.ok ("Unknown error occurred")
    ∧ parseContractError (JSValue.vstring ("boom")) = Except.ok ("boom")
    ∧ parseContractError (JSValue.vobject [(("message"), JSValue.vnumber 42)])
      = Except.error ("TypeError: message.includes is not a function") :=
  ⟨rfl, rfl, rfl, rfl, rfl⟩

/-- C9: `calculateAPY` returns `0` without throwing whenever the eligible
supply or the holder balance is zero, for every distribution amount and
reference price (the periods-per-year factor is the source's fixed constant
`12`). -/
theorem calculateAPY_zero_guards :
    ∀ (dist bal supply : Int) (price : Rat),
      supply = 0 ∨ bal = 0 → calculateAPY dist bal supply price = Except.ok 0 := by
  intro dist bal supply price h
  unfold calculateAPY
  rw [if_pos h]

/-- Witness for C9 at `(5, 0, 7, 1)`. -/
theorem calculateAPY_zero_guards_witness :
    calculateAPY 5 0 7 1 = Except.ok 0 :=
  calculateAPY_zero_guards 5 0 7 1 (Or.inr rfl)

theorem natCast_tmod (m n : Nat) : Int.tmod (m : Int) (n : Int) = ((m % n : Nat) : Int) := rfl

theorem ofDigitsLE_toDigitsRev : ∀ fuel n : Nat, n ≤ fuel → ofDigitsLE (toDigitsRev fuel n) = n := by
  intro fuel
  induction fuel with
  | zero =>
    intro n hn
    have h0 : n = 0 := Nat.le_zero.mp hn
    subst h0
    rfl
  | succ fuel ih =>
    intro n hn
    by_cases h0 : n = 0
    · subst h0
      simp [toDigitsRev, ofDigitsLE]
    · have hlt : n / 10 ≤ fuel := by
        have hd : n / 10 < n := Nat.div_lt_self (Nat.pos_of_ne_zero h0) (by norm_num)
        omega
      simp only [toDigitsRev, h0, if_false, ofDigitsLE, ih _ hlt]
      omega

theorem toDigitsRev_lt_ten : ∀ fuel n d : Nat, d ∈ toDigitsRev fuel n → d < 10 := by
  intro fuel
  induction fuel with
  | zero =>
    intro n d hd
    simp [toDigitsRev] at hd
  | succ fuel ih =>
    intro n d hd
    by_cases h0 : n = 0
    · subst h0
      simp [toDigitsRev] at hd
    · simp only [toDigitsRev, h0, if_false, List.mem_cons] at hd
      rcases hd with h | h
      · subst h
        omega
      · exact ih _ _ h

theorem toDigitsRev_length_le : ∀ fuel n e : Nat, n < 10 ^ e → (toDigitsRev fuel n).length ≤ e := by
  intro fuel
  induction fuel with
  | zero =>
    intro n e _
    simp [toDigitsRev]
  | succ fuel ih =>
    intro n e hne
    by_cases h0 : n = 0
    · subst h0
      simp [toDigitsRev]
    · cases e with
      | zero =>
        simp at hne
        omega
      | succ e =>
        have hdiv : n / 10 < 10 ^ e := by
          rw [Nat.div_lt_iff_lt_mul (by norm_num : 0 < 10)]
          calc n < 10 ^ (e + 1) := hne
            _ = 10 ^ e * 10 := by ring
        simp only [toDigitsRev, h0, if_false, List.length_cons]
        have := ih (n / 10) e hdiv
        omega

theorem charToDigit_digitChar : ∀ d : Nat, d < 10 → charToDigit (digitChar d) = d := by decide

theorem isDigitChar_digitChar : ∀ d : Nat, d < 10 → isDigitChar (digitChar d) = true := by decide

theorem charToDigit_zero : charToDigit '0' = 0 := by decide

theorem natToChars_ne_nil (n : Nat) : natToChars n ≠ [] := by
  unfold natToChars
  by_cases h0 : n = 0
  · simp [h0]
  · obtain ⟨m, rfl⟩ := Nat.exists_eq_succ_of_ne_zero h0
    simp [toDigitsRev]

theorem mem_natToChars_digit (n : Nat) : ∀ c ∈ natToChars n, isDigitChar c = true := by
  intro c hc
  unfold natToChars at hc
  by_cases h0 : n = 0
  · rw [h0] at hc
    simp at hc
    subst hc
    decide
  · rw [if_neg h0] at hc
    rw [List.mem_reverse, List.mem_map] at hc
    obtain ⟨d, hd, rfl⟩ := hc
    exact isDigitChar_digitChar d (toDigitsRev_lt_ten n n d hd)

theorem digit_ne_dot {c : Char} (hc : isDigitChar c = true) : c ≠ '.' := by
  intro h
  subst h
  exact absurd hc (by decide)

theorem dot_not_mem_natToChars (n : Nat) : '.' ∉ natToChars n := by
  intro h
  exact digit_ne_dot (mem_natToChars_digit n _ h) rfl

theorem foldl_digits_reverse : ∀ (ds : List Nat) (acc : Nat), (∀ d ∈ ds, d < 10) →
    List.foldl (fun acc c => 10 * acc + charToDigit c) acc ((ds.map digitChar).reverse)
      = acc * 10 ^ ds.length + ofDigitsLE ds := by
  intro ds
  induction ds with
  | nil =>
    intro acc _
    simp [ofDigitsLE]
  | cons d ds ih =>
    intro acc hd
    rw [List.map_cons, List.reverse_cons, List.foldl_append]
    rw [ih acc (fun x hx => hd x (List.mem_cons_of_mem _ hx))]
    simp only [List.foldl_cons, List.foldl_nil, List.length_cons, ofDigitsLE]
    rw [charToDigit_digitChar d (hd d (List.mem_cons_self _ _))]
    ring

theorem parseNat_natToChars (n : Nat) : parseNatChars (natToChars n) = n := by
  unfold parseNatChars natToChars
  by_cases h0 : n = 0
  · subst h0
    decide
  · rw [if_neg h0]
    rw [foldl_digits_reverse _ 0 (fun d hd => toDigitsRev_lt_ten n n d hd)]
    rw [ofDigitsLE_toDigitsRev n n le_rfl]
    simp

theorem intToChars_natCast (n : Nat) : intToChars (n : Int) = natToChars n := by
  have h : ¬((n : Int) < 0) := not_lt.mpr (Int.natCast_nonneg n)
  simp [intToChars, h]

theorem trimTrailingZeros_decomp (s : List Char) :
    ∃ m, s = trimTrailingZeros s ++ List.replicate m '0'
      ∧ (trimTrailingZeros s).length + m = s.length := by
  unfold trimTrailingZeros
  have htake : s.reverse.takeWhile (fun c => c == '0')
      = List.replicate (s.reverse.takeWhile (fun c => c == '0')).length '0' := by
    rw [List.eq_replicate_iff]
    refine ⟨rfl, fun b hb => ?_⟩
    have hmem := List.mem_takeWhile_imp hb
    simpa using hmem
  refine ⟨(s.reverse.takeWhile (fun c => c == '0')).length, ?_, ?_⟩
  · conv_lhs => rw [← List.reverse_reverse s,
      ← List.takeWhile_append_dropWhile (fun c => c == '0') s.reverse]
    rw [List.reverse_append]
    conv_lhs => rw [htake, List.reverse_replicate]
  · have hlen := congrArg List.length
      (List.takeWhile_append_dropWhile (fun c => c == '0') s.reverse)
    simp only [List.length_append, List.length_reverse] at hlen ⊢
    omega

theorem mem_trimTrailingZeros (s : List Char) (c : Char) (hc : c ∈ trimTrailingZeros s) :
    c ∈ s := by
  obtain ⟨m, hdecomp, _⟩ := trimTrailingZeros_decomp s
  rw [hdecomp]
  exact List.mem_append_left _ hc

theorem foldl_replicate_zero : ∀ m acc : Nat,
    List.foldl (fun acc c => 10 * acc + charToDigit c) acc (List.replicate m '0')
      = acc * 10 ^ m := by
  intro m
  induction m with
  | zero =>
    intro acc
    simp
  | succ m ih =>
    intro acc
    rw [List.replicate_succ, List.foldl_cons, charToDigit_zero, ih]
    ring

theorem parseNat_append_replicate (t : List Char) (m : Nat) :
    parseNatChars (t ++ List.replicate m '0') = parseNatChars t * 10 ^ m := by
  unfold parseNatChars
  rw [List.foldl_append, foldl_replicate_zero]

theorem parseNat_replicate_prepend (j : Nat) (t : List Char) :
    parseNatChars (List.replicate j '0' ++ t) = parseNatChars t := by
  unfold parseNatChars
  rw [List.foldl_append, foldl_replicate_zero]
  norm_num

theorem splitAtDot_no_dot : ∀ s : List Char, '.' ∉ s → splitAtDot s = (s, []) := by
  intro s
  induction s with
  | nil =>
    intro _
    rfl
  | cons c cs ih =>
    intro h
    have hc : ¬(c = '.') := fun hc => h (hc ▸ List.mem_cons_self c cs)
    simp only [splitAtDot, hc, if_false, ih (fun hm => h (List.mem_cons_of_mem c hm))]

theorem splitAtDot_append (s t : List Char) (h : '.' ∉ s) :
    splitAtDot (s ++ '.' :: t) = (s, t) := by
  induction s with
  | nil =>
    simp [splitAtDot]
  | cons c cs ih =>
    have hc : ¬(c = '.') := fun hc => h (hc ▸ List.mem_cons_self c cs)
    simp only [List.cons_append, splitAtDot, hc, if_false, List.append_eq]
    rw [ih (fun hm => h (List.mem_cons_of_mem c hm))]

/-- C2: parsing the display formatter's output at the same exponent recovers
the amount exactly, for every non-negative amount and every exponent in
`[0, 77]`. -/
theorem display_roundtrip :
    ∀ a e : Nat, e ≤ 77 →
      parseFromDisplayString (formatTokenDisplay (a : Int) e) e = Except.ok ((a : Int)) := by
  intro a e _he
  have hpow : ((10 : Int) ^ e) = ((10 ^ e : Nat) : Int) := by push_cast; rfl
  have hwhole : Int.tdiv (a : Int) ((10 : Int) ^ e) = ((a / 10 ^ e : Nat) : Int) := by
    rw [hpow, natCast_tdiv]
  have hfrac : Int.tmod (a : Int) ((10 : Int) ^ e) = ((a % 10 ^ e : Nat) : Int) := by
    rw [hpow, natCast_tmod]
  have hsum : 10 ^ e * (a / 10 ^ e) + a % 10 ^ e = a := Nat.div_add_mod a (10 ^ e)
  by_cases hf0 : a % 10 ^ e = 0
  · -- fraction is zero: the display is just the whole part
    have hformat : formatTokenDisplay (a : Int) e = String.mk (natToChars (a / 10 ^ e)) := by
      simp only [formatTokenDisplay, hwhole, hfrac, hf0, Nat.cast_zero, if_true,
        intToString, intToChars_natCast]
    rw [hformat]
    simp only [parseFromDisplayString]
    rw [splitAtDot_no_dot _ (dot_not_mem_natToChars (a / 10 ^ e))]
    have hall : (natToChars (a / 10 ^ e)).all isDigitChar = true :=
      List.all_eq_true.mpr (mem_natToChars_digit (a / 10 ^ e))
    have hne : (natToChars (a / 10 ^ e)).isEmpty = false := by
      rcases hcase : natToChars (a / 10 ^ e) with _ | ⟨x, xs⟩
      · exact absurd hcase (natToChars_ne_nil (a / 10 ^ e))
      · rfl
    simp only [hall, hne, Bool.not_false, List.all_nil, Bool.and_true, Bool.true_and, if_true,
      List.length_nil, Nat.zero_le, parseNat_natToChars]
    have hval : a / 10 ^ e * 10 ^ e + parseNatChars [] * 10 ^ (e - 0) = a := by
      have hp : parseNatChars [] = 0 := rfl
      rw [hp, Nat.zero_mul, Nat.add_zero, Nat.mul_comm]
      omega
    rw [hval]
  · -- fraction is non-zero
    have hflt : a % 10 ^ e < 10 ^ e := Nat.mod_lt a (Nat.pos_pow_of_pos e (by norm_num))
    have hlen : (natToChars (a % 10 ^ e)).length ≤ e := by
      unfold natToChars
      rw [if_neg hf0]
      rw [List.length_reverse, List.length_map]
      exact toDigitsRev_length_le _ _ _ hflt
    have hfslen : (padStartChars (natToChars (a % 10 ^ e)) e '0').length = e := by
      simp only [padStartChars, List.length_append, List.length_replicate]
      omega
    obtain ⟨m, hdecomp, hlen2⟩ :=
      trimTrailingZeros_decomp (padStartChars (natToChars (a % 10 ^ e)) e '0')
    have hparse_fs : parseNatChars (padStartChars (natToChars (a % 10 ^ e)) e '0')
        = a % 10 ^ e := by
      unfold padStartChars
      rw [parseNat_replicate_prepend, parseNat_natToChars]
    have hparse_tr :
        parseNatChars (trimTrailingZeros (padStartChars (natToChars (a % 10 ^ e)) e '0'))
          * 10 ^ m = a % 10 ^ e := by
      rw [← parseNat_append_replicate, ← hdecomp]
      exact hparse_fs
    have htr_ne : trimTrailingZeros (padStartChars (natToChars (a % 10 ^ e)) e '0') ≠ [] := by
      intro h
      rw [h] at hparse_tr
      have hz : parseNatChars ([] : List Char) = 0 := rfl
      rw [hz, Nat.zero_mul] at hparse_tr
      exact hf0 hparse_tr.symm
    have htr_empty :
        (trimTrailingZeros (padStartChars (natToChars (a % 10 ^ e)) e '0')).isEmpty = false := by
      rcases hcase : trimTrailingZeros (padStartChars (natToChars (a % 10 ^ e)) e '0') with
        _ | ⟨x, xs⟩
      · exact absurd hcase htr_ne
      · rfl
    have hfc : ¬(((a % 10 ^ e : Nat) : Int) = 0) := by
      exact_mod_cast hf0
    have hformat : formatTokenDisplay (a : Int) e
        = String.mk (natToChars (a / 10 ^ e) ++ '.' ::
            trimTrailingZeros (padStartChars (natToChars (a % 10 ^ e)) e '0')) := by
      simp only [formatTokenDisplay, hwhole, hfrac, hfc, if_false, intToChars_natCast,
        htr_empty, Bool.false_eq_true, intToString]
    rw [hformat]
    simp only [parseFromDisplayString]
    rw [splitAtDot_append _ _ (dot_not_mem_natToChars (a / 10 ^ e))]
    have hall : (natToChars (a / 10 ^ e)).all isDigitChar = true :=
      List.all_eq_true.mpr (mem_natToChars_digit (a / 10 ^ e))
    have hne : (natToChars (a / 10 ^ e)).isEmpty = false := by
      rcases hcase : natToChars (a / 10 ^ e) with _ | ⟨x, xs⟩
      · exact absurd hcase (natToChars_ne_nil (a / 10 ^ e))
      · rfl
    have htr_digits :
        (trimTrailingZeros (padStartChars (natToChars (a % 10 ^ e)) e '0')).all isDigitChar
          = true := by
      rw [List.all_eq_true]
      intro c hc
      have hmem := mem_trimTrailingZeros _ c hc
      unfold padStartChars at hmem
      rcases List.mem_append.mp hmem with h | h
      · have hc0 : c = '0' := List.eq_of_mem_replicate h
        subst hc0
        decide
      · exact mem_natToChars_digit _ c h
    have hk : (trimTrailingZeros (padStartChars (natToChars (a % 10 ^ e)) e '0')).length ≤ e := by
      omega
    simp only [hall, hne, htr_digits, Bool.not_false, Bool.and_true, Bool.true_and, if_true,
      hk, parseNat_natToChars]
    have hm : e - (trimTrailingZeros (padStartChars (natToChars (a % 10 ^ e)) e '0')).length
        = m := by
      omega
    rw [hm]
    have hval : a / 10 ^ e * 10 ^ e
        + parseNatChars (trimTrailingZeros (padStartChars (natToChars (a % 10 ^ e)) e '0'))
          * 10 ^ m = a := by
      rw [hparse_tr, Nat.mul_comm]
      omega
    rw [hval]

/-- Witness for C2 at `(a, e) = (15, 1)` — the display is `"1.5"`. -/
theorem display_roundtrip_witness :
    parseFromDisplayString (formatTokenDisplay ((15 : Nat) : Int) 1) 1
      = Except.ok (((15 : Nat) : Int)) :=
  display_roundtrip 15 1 (by norm_num)

/-- C5 counterexample: `hasRole` is a client operation outside the
batch-claim path that silently swallows a remote-call failure — at a
concrete failed remote call it returns `ok false` instead of propagating a
typed error. -/
theorem hasRole_swallows_failure :
    hasRole (Except.error (JSValue.vstring ("network down"))) = Except.ok false := rfl

theorem claimBody_claimable_error (acc : String) (sid ts : Int) (r : ClaimRemotes)
    (e : JSValue) (h : r.claimable = Except.error e) :
    claimBody (Except.ok acc) sid ts r
      = Except.error (SdkError.contractInteraction ("Failed to get claimable amount")
          ("Distributor") ("claimable")) := by
  unfold claimBody
  rw [h]
  rfl

theorem claim_never_raw (af : Remote String) (sid ts : Int) (r : ClaimRemotes) (x : JSValue) :
    claim af sid ts r ≠ Except.error (SdkError.rawRemote x) := by
  intro heq
  unfold claim at heq
  split at heq <;> simp_all

/-- C5 amended: remote-call failures are never silently swallowed except in
`claimMultiple` — which logs and skips per-item failures and hands the
caller exactly the list of succeeded claim results — and in `hasRole`, which
maps any remote failure to `false`; every other client operation propagates
its remote failure as a typed `SdkError` (in particular `claim` never leaks
an unwrapped remote rejection). -/
theorem client_failure_policy :
    ∀ (e : JSValue) (acc : String) (sid ts amt bal : Int) (ids : List Int)
      (remotes : Int → ClaimRemotes) (r : ClaimRemotes),
      getTokenBalance (Except.error e)
        = Except.error (SdkError.contractInteraction ("Failed to get token balance")
            ("ENR1MToken") ("balanceOf"))
      ∧ getTokenBalanceAtSnapshot (Except.error e)
        = Except.error (SdkError.contractInteraction ("Failed to get token balance at snapshot")
            ("ENR1MToken") ("balanceOfAt"))
      ∧ getTotalSupplyAtSnapshot (Except.error e)
        = Except.error (SdkError.contractInteraction ("Failed to get total supply at snapshot")
            ("ENR1MToken") ("totalSupplyAt"))
      ∧ getEligibleSupplyAtSnapshot (Except.error e)
        = Except.error (SdkError.contractInteraction ("Failed to get eligible supply at snapshot")
            ("ENR1MToken") ("eligibleSupplyAt"))
      ∧ getClaimableAmount (Except.error e)
        = Except.error (SdkError.contractInteraction ("Failed to get claimable amount")
            ("Distributor") ("claimable"))
      ∧ getDistributionInfo (Except.error e)
        = Except.error (SdkError.contractInteraction ("Failed to get distribution info")
            ("Distributor") ("getDistributionInfo"))
      ∧ (∀ (ba c : Remote Int) (cl : Remote Bool),
          getUserInfo (Except.error e) ba c cl
            = Except.error (SdkError.contractInteraction ("Failed to get user info")
                ("Multiple contracts") ("getUserInfo")))
      ∧ (∀ (receipt tsr esr : Remote Int),
          createSnapshot (Except.error e) receipt sid ts tsr esr
            = Except.error (SdkError.contractInteraction ("Failed to create snapshot")
                ("ENR1MToken") ("snapshot")))
      ∧ claim (Except.error e) sid ts r
        = Except.error (SdkError.contractInteraction ("Failed to claim profits")
            ("Distributor") ("claim"))
      ∧ (r.claimable = Except.error e →
          claim (Except.ok acc) sid ts r
            = Except.error (SdkError.contractInteraction ("Failed to claim profits")
                ("Distributor") ("claim")))
      ∧ (∀ (x : JSValue) (af : Remote String),
          claim af sid ts r ≠ Except.error (SdkError.rawRemote x))
      ∧ claimMultiple (Except.ok acc) ts ids remotes
        = Except.ok (ids.filterMap
            (fun sid2 => (claim (Except.ok acc) sid2 ts (remotes sid2)).toOption))
      ∧ claimMultiple (Except.error e) ts ids remotes
        = Except.error (SdkError.contractInteraction ("Failed to claim multiple profits")
            ("Distributor") ("claimMultiple"))
      ∧ (∀ (ub : Remote Int) (aw : Remote String) (ar : Remote Unit) (dw : Remote String)
            (dr : Remote Unit),
          depositRevenue amt (Except.error e) ub aw ar dw dr
            = Except.error (SdkError.contractInteraction ("Failed to deposit revenue")
                ("RevenueVault") ("deposit")))
      ∧ (bal < amt → ∀ (aw : Remote String) (ar : Remote Unit) (dw : Remote String)
            (dr : Remote Unit),
          depositRevenue amt (Except.ok acc) (Except.ok bal) aw ar dw dr
            = Except.error (SdkError.insufficientBalance amt bal ("USDC")))
      ∧ (∀ receipt : Remote Unit, fundDistribution (Except.error e) receipt
          = Except.error (SdkError.contractInteraction ("Failed to fund distribution")
              ("RevenueVault") ("fundDistribution")))
      ∧ (∀ receipt : Remote Unit, createDistribution sid amt ts (Except.error e) receipt
          = Except.error (SdkError.contractInteraction ("Failed to create distribution")
              ("Distributor") ("distribute")))
      ∧ hasRole (Except.error e) = Except.ok false := by
  intro e acc sid ts amt bal ids remotes r
  refine ⟨rfl, rfl, rfl, rfl, rfl, rfl, fun ba c cl => rfl, fun receipt tsr esr => rfl, rfl,
    fun h => ?_, fun x af => claim_never_raw af sid ts r x, rfl, rfl,
    fun ub aw ar dw dr => rfl, fun h aw ar dw dr => ?_, fun receipt => rfl,
    fun receipt => rfl, rfl⟩
  · unfold claim
    rw [claimBody_claimable_error acc sid ts r e h]
  · have hbody : depositRevenueBody amt (Except.ok acc) (Except.ok bal) aw ar dw dr
        = Except.error (SdkError.insufficientBalance amt bal ("USDC")) := by
      show (if bal < amt
        then Except.error (SdkError.insufficientBalance amt bal ("USDC"))
        else _) = Except.error (SdkError.insufficientBalance amt bal ("USDC"))
      rw [if_pos h]
    unfold depositRevenue
    rw [hbody]

/-- Witness for the amended C5 theorem: a concrete failing `claimable`
remote makes `claim` return the typed wrapped error. -/
theorem client_failure_policy_witness :
    claim (Except.ok ("0xabc")) 1 0
        ⟨Except.error (JSValue.vstring ("boom")), Except.ok false,
          Except.ok (0, 0, 0, 0, true), Except.ok ("0xh"), Except.ok ()⟩
      = Except.error (SdkError.contractInteraction ("Failed to claim profits")
          ("Distributor") ("claim")) :=
  (client_failure_policy (JSValue.vstring ("boom")) ("0xabc") 1 0 0 0 []
      (fun _ => ⟨Except.ok 0, Except.ok false, Except.ok (0, 0, 0, 0, true),
        Except.ok ("h"), Except.ok ()⟩)
      ⟨Except.error (JSValue.vstring ("boom")), Except.ok false,
        Except.ok (0, 0, 0, 0, true), Except.ok ("0xh"),
        Except.ok ()⟩).2.2.2.2.2.2.2.2.2.1 rfl

end PrimeSdk
